import Mathlib

/-!
Shallow embedding of the weather-lookup service core:
the expiring key-value cache (`instances/cache`), the weather retrieval
rule engine (`services/weather/weatherRules.ts`), and the HTTP handler
(`api/v1/external/weather/controller.ts`).

Time is modelled as integer epoch milliseconds.  JavaScript numbers that
carry temperatures are modelled as rationals.  The effects of the real
code (the mutable cache singleton, `Date.now()`, the network fetch and
`Date#toISOString`) are made explicit parameters: cache state is passed
in and out, the two observation times (`now` at cache lookup, `fetchNow`
at fetch completion) are arguments, the upstream HTTP exchange is a value
of `UpstreamBehavior`, and timestamp conversion is an arbitrary function
`toISO : String → String`.
-/

namespace Weather

/-- `ExternalWeatherAPIResponse.current` from `weatherTypes.ts`. -/
structure ExternalCurrent where
  temp_c : ℚ
  temp_f : ℚ
  last_updated : String
deriving DecidableEq

/-- `ExternalWeatherAPIResponse.location` from `weatherTypes.ts`. -/
structure ExternalLocation where
  name : String
  region : String
  country : String
deriving DecidableEq

/-- `ExternalWeatherAPIResponse` from `weatherTypes.ts`. -/
structure ExternalWeatherAPIResponse where
  current : ExternalCurrent
  location : ExternalLocation
deriving DecidableEq

/-- `WeatherResponse` from `weatherTypes.ts`. -/
structure WeatherResponse where
  temperature : ℚ
  unit : String
  location : String
  timestamp : String
  status : String
deriving DecidableEq

/-- `CachedWeatherData` from `weatherTypes.ts`. -/
structure CachedWeatherData where
  temperature : ℚ
  unit : String
  location : String
  timestamp : String
  cacheTime : ℤ
deriving DecidableEq

/-- The `code` field the service attaches to thrown `Error` objects. -/
inductive ErrCode where
  | WEATHER_API_ERROR
  | LOCATION_NOT_FOUND
  | VALIDATION_ERROR
deriving DecidableEq

/-- A thrown `Error` as the service uses it: a message plus a `code` field. -/
structure AppError where
  code : ErrCode
  message : String
deriving DecidableEq

/-- `CacheEntry<T>` from `instances/cache`. -/
structure CacheEntry (T : Type) where
  value : T
  expiry : ℤ
deriving DecidableEq

/-- Lookup in the association-list model of `Map<string, CacheEntry>`:
`Map#get` returns the binding for the key, if any. -/
def mapGet {T : Type} : List (String × CacheEntry T) → String → Option (CacheEntry T)
  | [], _ => none
  | (k, e) :: rest, key => if k = key then some e else mapGet rest key

/-- `Map#set`: overwrite the binding for the key in place, or append one. -/
def mapSet {T : Type} :
    List (String × CacheEntry T) → String → CacheEntry T → List (String × CacheEntry T)
  | [], key, e => [(key, e)]
  | (k, e0) :: rest, key, e =>
    if k = key then (key, e) :: rest else (k, e0) :: mapSet rest key e

/-- `Map#delete`: remove the binding for the key (a `Map` holds at most one). -/
def mapDelete {T : Type} :
    List (String × CacheEntry T) → String → List (String × CacheEntry T)
  | [], _ => []
  | (k, e0) :: rest, key =>
    if k = key then mapDelete rest key else (k, e0) :: mapDelete rest key

/-- `SimpleCache` state from `instances/cache`: the backing map plus the
instance TTL in milliseconds (the constructor stores `ttl * 1000`). -/
structure SimpleCache (T : Type) where
  cache : List (String × CacheEntry T)
  ttl : ℤ
deriving DecidableEq

/-- `SimpleCache#set`: stores the value with `expiry = Date.now() + this.ttl`.
`now` stands for that `Date.now()` call. -/
def SimpleCache.set {T : Type} (c : SimpleCache T) (now : ℤ) (key : String)
    (value : T) : SimpleCache T :=
  { c with cache := mapSet c.cache key ⟨value, now + c.ttl⟩ }

/-- `SimpleCache#get`: absent key gives `undefined`; an entry with
`Date.now() > expiry` is deleted and `undefined` returned; otherwise the
stored value.  Returns the possibly mutated cache alongside the result. -/
def SimpleCache.get {T : Type} (c : SimpleCache T) (now : ℤ) (key : String) :
    Option T × SimpleCache T :=
  match mapGet c.cache key with
  | none => (none, c)
  | some entry =>
    if now > entry.expiry then (none, { c with cache := mapDelete c.cache key })
    else (some entry.value, c)

/-- The upstream HTTP exchange as `fetchWeatherFromAPI` observes it:
either the fetch/json step throws (an error without a `code`, normalized
to `WEATHER_API_ERROR`), or a response with an HTTP status and a decoded
payload arrives (`response.ok` is `200 ≤ status ≤ 299`). -/
inductive UpstreamBehavior where
  | failure
  | response (status : ℕ) (data : ExternalWeatherAPIResponse)
deriving DecidableEq

/-- The cache key both `weatherGet` and `fetchWeatherFromAPI` compute from
the template literal: `weather_` followed by the location, `_`, the unit. -/
def weatherCacheKey (location unit : String) : String :=
  "weather_" ++ location ++ "_" ++ unit

/-- JavaScript `Math.round`: round half toward positive infinity. -/
def jsRound (x : ℚ) : ℤ := (x + 1/2).floor

/-- `Math.round(temperature * 10) / 10` from `weatherRules.ts` line 170. -/
def roundTo1 (x : ℚ) : ℚ := (jsRound (x * 10) : ℚ) / 10

/-- `fetchWeatherFromAPI` from `weatherRules.ts`.  `apiKey` is the
configured key (`""` for absent, since `!apiKey` tests falsiness),
`fetchNow` the `Date.now()` at which the fresh entry is cached. -/
def fetchWeatherFromAPI (cache : SimpleCache CachedWeatherData) (apiKey : String)
    (upstream : UpstreamBehavior) (toISO : String → String) (fetchNow : ℤ)
    (location unit : String) :
    Except AppError (WeatherResponse × SimpleCache CachedWeatherData) :=
  if apiKey = "" then
    .error ⟨.WEATHER_API_ERROR, "weatherApiKeyNotConfigured"⟩
  else
    match upstream with
    | .failure => .error ⟨.WEATHER_API_ERROR, "weatherApiRequestFailed"⟩
    | .response status data =>
      if status < 200 ∨ 299 < status then
        if status = 400 then .error ⟨.LOCATION_NOT_FOUND, "locationNotFound"⟩
        else .error ⟨.WEATHER_API_ERROR, "weatherApiRequestFailed"⟩
      else
        let temperature :=
          if unit = "fahrenheit" then data.current.temp_f else data.current.temp_c
        let unitSymbol := if unit = "fahrenheit" then "°F" else "°C"
        let formattedLocation :=
          data.location.name ++ ", " ++
            (if data.location.region = "" then data.location.country
             else data.location.region)
        let timestamp := toISO data.current.last_updated
        if temperature < -90 ∨ temperature > 60 then
          .error ⟨.VALIDATION_ERROR, "temperatureOutOfRange"⟩
        else
          let weatherResponse : WeatherResponse :=
            ⟨roundTo1 temperature, unitSymbol, formattedLocation, timestamp, "online"⟩
          let cacheKey := weatherCacheKey location unit
          let cacheData : CachedWeatherData :=
            ⟨weatherResponse.temperature, weatherResponse.unit,
              weatherResponse.location, weatherResponse.timestamp, fetchNow⟩
          .ok (weatherResponse, cache.set fetchNow cacheKey cacheData)

/-- `weatherGet` from `weatherRules.ts`.  `now` is the `Date.now()` of the
cache-age check; the returned cache is the final state of the singleton. -/
def weatherGet (cache : SimpleCache CachedWeatherData) (now : ℤ) (apiKey : String)
    (upstream : UpstreamBehavior) (toISO : String → String) (fetchNow : ℤ)
    (location unit : String) :
    Except AppError WeatherResponse × SimpleCache CachedWeatherData :=
  let cacheKey := weatherCacheKey location unit
  let g := cache.get now cacheKey
  match g.1 with
  | some cd =>
    let cacheAge := now - cd.cacheTime
    if cacheAge < 15 * 60 * 1000 then
      (.ok ⟨cd.temperature, cd.unit, cd.location, cd.timestamp, "online"⟩, g.2)
    else if cacheAge > 60 * 60 * 1000 then
      match fetchWeatherFromAPI g.2 apiKey upstream toISO fetchNow location unit with
      | .ok fd => (.ok fd.1, fd.2)
      | .error _ =>
        (.ok ⟨cd.temperature, cd.unit, cd.location, cd.timestamp, "outdated"⟩, g.2)
    else
      match fetchWeatherFromAPI g.2 apiKey upstream toISO fetchNow location unit with
      | .ok fd => (.ok fd.1, fd.2)
      | .error _ =>
        (.ok ⟨cd.temperature, cd.unit, cd.location, cd.timestamp, "offline"⟩, g.2)
  | none =>
    match fetchWeatherFromAPI g.2 apiKey upstream toISO fetchNow location unit with
    | .ok fd => (.ok fd.1, fd.2)
    | .error e => (.error e, g.2)

/-- An Express query parameter value: a string, or some non-string shape
(array / nested object).  `req.query.location` / `req.query.unit` are
`Option QueryVal` (absent = `none`). -/
inductive QueryVal where
  | str (s : String)
  | nonString
deriving DecidableEq

/-- The observable outcome of `getHandler`: the HTTP response sent, or
delegation to the generic error middleware via `next(error)`. -/
inductive HandlerResponse where
  | validation400 (message : String)
  | success200 (data : WeatherResponse)
  | externalApiError503 (message : String)
  | locationNotFound404 (message : String)
  | delegated (e : AppError)
deriving DecidableEq

/-- `getHandler` from `controller.ts`.  `unitQ` defaults to `"celsius"`
when absent; `!location` is JavaScript falsiness, so an empty string also
fails the first validation. -/
def getHandler (cache : SimpleCache CachedWeatherData) (now : ℤ) (apiKey : String)
    (upstream : UpstreamBehavior) (toISO : String → String) (fetchNow : ℤ)
    (location unitQ : Option QueryVal) :
    HandlerResponse × SimpleCache CachedWeatherData :=
  let unit := unitQ.getD (.str "celsius")
  match location with
  | some (QueryVal.str s) =>
    if s = "" then (.validation400 "locationRequired", cache)
    else if unit ≠ QueryVal.str "celsius" ∧ unit ≠ QueryVal.str "fahrenheit" then
      (.validation400 "invalidUnit", cache)
    else
      let unitStr := match unit with | QueryVal.str u => u | QueryVal.nonString => ""
      match weatherGet cache now apiKey upstream toISO fetchNow s unitStr with
      | (.ok wd, c2) => (.success200 wd, c2)
      | (.error e, c2) =>
        if e.code = ErrCode.WEATHER_API_ERROR then (.externalApiError503 e.message, c2)
        else if e.code = ErrCode.LOCATION_NOT_FOUND then
          (.locationNotFound404 e.message, c2)
        else (.delegated e, c2)
  | _ => (.validation400 "locationRequired", cache)

/-! ### Association-list map lemmas -/

lemma mapGet_mapSet {T : Type} (m : List (String × CacheEntry T)) (key k : String)
    (e0 : CacheEntry T) :
    mapGet (mapSet m key e0) k = if key = k then some e0 else mapGet m k := by
  induction m with
  | nil =>
    by_cases h : key = k <;> simp [mapSet, mapGet, h]
  | cons p rest ih =>
    obtain ⟨k0, e1⟩ := p
    by_cases h0 : k0 = key
    · subst h0
      by_cases h : k0 = k <;> simp [mapSet, mapGet, h]
    · by_cases h : k0 = k
      · subst h
        have : ¬ key = k0 := fun hk => h0 hk.symm
        simp [mapSet, h0, mapGet, this]
      · simp [mapSet, h0, mapGet, h, ih]

lemma mapGet_mapDelete {T : Type} (m : List (String × CacheEntry T)) (key k : String) :
    mapGet (mapDelete m key) k = if key = k then none else mapGet m k := by
  induction m with
  | nil =>
    by_cases h : key = k <;> simp [mapDelete, mapGet, h]
  | cons p rest ih =>
    obtain ⟨k0, e1⟩ := p
    by_cases h0 : k0 = key
    · subst h0
      by_cases h : k0 = k
      · subst h
        simp [mapDelete, mapGet, ih]
      · have : ¬ k0 = k := h
        simp [mapDelete, mapGet, ih, this]
    · by_cases h : k0 = k
      · subst h
        have : ¬ key = k0 := fun hk => h0 hk.symm
        simp [mapDelete, h0, mapGet, this]
      · simp [mapDelete, h0, mapGet, h, ih]

/-! ### `SimpleCache.get` inversion -/

lemma SimpleCache.get_eq_some {T : Type} (c : SimpleCache T) (now : ℤ) (key : String)
    (v : T) (h : (c.get now key).1 = some v) :
    ∃ e, mapGet c.cache key = some e ∧ e.value = v ∧ now ≤ e.expiry := by
  unfold SimpleCache.get at h
  rcases hm : mapGet c.cache key with _ | e
  · rw [hm] at h
    simp at h
  · rw [hm] at h
    by_cases hx : now > e.expiry
    · simp [hx] at h
    · simp [hx] at h
      exact ⟨e, rfl, h, by omega⟩

lemma SimpleCache.get_snd_cases {T : Type} (c : SimpleCache T) (now : ℤ) (key : String) :
    (c.get now key).2 = c ∨
      (c.get now key).2 = { c with cache := mapDelete c.cache key } := by
  unfold SimpleCache.get
  rcases hm : mapGet c.cache key with _ | e
  · exact Or.inl rfl
  · by_cases hx : now > e.expiry
    · simp [hx]
    · simp [hx]

/-! ### `weatherGet` branch equations -/

lemma weatherGet_eq_of_none (cache : SimpleCache CachedWeatherData) (now : ℤ)
    (apiKey : String) (upstream : UpstreamBehavior) (toISO : String → String)
    (fetchNow : ℤ) (location unit : String)
    (h : (cache.get now (weatherCacheKey location unit)).1 = none) :
    weatherGet cache now apiKey upstream toISO fetchNow location unit =
      match fetchWeatherFromAPI (cache.get now (weatherCacheKey location unit)).2
          apiKey upstream toISO fetchNow location unit with
      | .ok fd => (.ok fd.1, fd.2)
      | .error e => (.error e, (cache.get now (weatherCacheKey location unit)).2) := by
  simp only [weatherGet]
  rw [h]

lemma weatherGet_eq_of_fresh (cache : SimpleCache CachedWeatherData) (now : ℤ)
    (apiKey : String) (upstream : UpstreamBehavior) (toISO : String → String)
    (fetchNow : ℤ) (location unit : String) (cd : CachedWeatherData)
    (h : (cache.get now (weatherCacheKey location unit)).1 = some cd)
    (hfresh : now - cd.cacheTime < 15 * 60 * 1000) :
    weatherGet cache now apiKey upstream toISO fetchNow location unit =
      (.ok ⟨cd.temperature, cd.unit, cd.location, cd.timestamp, "online"⟩,
        (cache.get now (weatherCacheKey location unit)).2) := by
  simp only [weatherGet, h]
  rw [if_pos hfresh]

lemma weatherGet_eq_of_stale (cache : SimpleCache CachedWeatherData) (now : ℤ)
    (apiKey : String) (upstream : UpstreamBehavior) (toISO : String → String)
    (fetchNow : ℤ) (location unit : String) (cd : CachedWeatherData)
    (h : (cache.get now (weatherCacheKey location unit)).1 = some cd)
    (hstale : now - cd.cacheTime > 60 * 60 * 1000) :
    weatherGet cache now apiKey upstream toISO fetchNow location unit =
      match fetchWeatherFromAPI (cache.get now (weatherCacheKey location unit)).2
          apiKey upstream toISO fetchNow location unit with
      | .ok fd => (.ok fd.1, fd.2)
      | .error _ =>
        (.ok ⟨cd.temperature, cd.unit, cd.location, cd.timestamp, "outdated"⟩,
          (cache.get now (weatherCacheKey location unit)).2) := by
  have hnf : ¬ (now - cd.cacheTime < 15 * 60 * 1000) := by omega
  simp only [weatherGet, h]
  rw [if_neg hnf, if_pos hstale]

lemma weatherGet_eq_of_aging (cache : SimpleCache CachedWeatherData) (now : ℤ)
    (apiKey : String) (upstream : UpstreamBehavior) (toISO : String → String)
    (fetchNow : ℤ) (location unit : String) (cd : CachedWeatherData)
    (h : (cache.get now (weatherCacheKey location unit)).1 = some cd)
    (h15 : 15 * 60 * 1000 ≤ now - cd.cacheTime)
    (h60 : now - cd.cacheTime ≤ 60 * 60 * 1000) :
    weatherGet cache now apiKey upstream toISO fetchNow location unit =
      match fetchWeatherFromAPI (cache.get now (weatherCacheKey location unit)).2
          apiKey upstream toISO fetchNow location unit with
      | .ok fd => (.ok fd.1, fd.2)
      | .error _ =>
        (.ok ⟨cd.temperature, cd.unit, cd.location, cd.timestamp, "offline"⟩,
          (cache.get now (weatherCacheKey location unit)).2) := by
  have hnf : ¬ (now - cd.cacheTime < 15 * 60 * 1000) := by omega
  have hns : ¬ (now - cd.cacheTime > 60 * 60 * 1000) := by omega
  simp only [weatherGet, h]
  rw [if_neg hnf, if_neg hns]

/-! ### `fetchWeatherFromAPI` outcome shape -/

lemma fetchWeatherFromAPI_cases (cache : SimpleCache CachedWeatherData)
    (apiKey : String) (upstream : UpstreamBehavior) (toISO : String → String)
    (fetchNow : ℤ) (location unit : String) :
    (∃ e, fetchWeatherFromAPI cache apiKey upstream toISO fetchNow location unit =
      .error e) ∨
    (∃ wr : WeatherResponse, wr.status = "online" ∧
      fetchWeatherFromAPI cache apiKey upstream toISO fetchNow location unit =
        .ok (wr, cache.set fetchNow (weatherCacheKey location unit)
          ⟨wr.temperature, wr.unit, wr.location, wr.timestamp, fetchNow⟩)) := by
  by_cases hk : apiKey = ""
  · exact Or.inl ⟨⟨.WEATHER_API_ERROR, "weatherApiKeyNotConfigured"⟩,
      by simp [fetchWeatherFromAPI, hk]⟩
  · rcases upstream with _ | ⟨status, data⟩
    · exact Or.inl ⟨⟨.WEATHER_API_ERROR, "weatherApiRequestFailed"⟩,
        by simp [fetchWeatherFromAPI, hk]⟩
    · by_cases hs : status < 200 ∨ 299 < status
      · by_cases h4 : status = 400
        · exact Or.inl ⟨⟨.LOCATION_NOT_FOUND, "locationNotFound"⟩,
            by simp [fetchWeatherFromAPI, hk, hs, h4]⟩
        · exact Or.inl ⟨⟨.WEATHER_API_ERROR, "weatherApiRequestFailed"⟩,
            by simp [fetchWeatherFromAPI, hk, hs, h4]⟩
      · by_cases ht :
            (if unit = "fahrenheit" then data.current.temp_f else data.current.temp_c)
              < -90 ∨
            (if unit = "fahrenheit" then data.current.temp_f else data.current.temp_c)
              > 60
        · exact Or.inl ⟨⟨.VALIDATION_ERROR, "temperatureOutOfRange"⟩,
            by simp [fetchWeatherFromAPI, hk, hs, ht]⟩
        · refine Or.inr ⟨⟨roundTo1
              (if unit = "fahrenheit" then data.current.temp_f else data.current.temp_c),
              (if unit = "fahrenheit" then "°F" else "°C"),
              data.location.name ++ ", " ++
                (if data.location.region = "" then data.location.country
                 else data.location.region),
              toISO data.current.last_updated, "online"⟩, rfl, ?_⟩
          simp [fetchWeatherFromAPI, hk, hs, ht]

lemma fetchWeatherFromAPI_ok_shape (cache : SimpleCache CachedWeatherData)
    (apiKey : String) (upstream : UpstreamBehavior) (toISO : String → String)
    (fetchNow : ℤ) (location unit : String)
    (p : WeatherResponse × SimpleCache CachedWeatherData)
    (h : fetchWeatherFromAPI cache apiKey upstream toISO fetchNow location unit = .ok p) :
    p.1.status = "online" ∧
    p.2 = cache.set fetchNow (weatherCacheKey location unit)
      ⟨p.1.temperature, p.1.unit, p.1.location, p.1.timestamp, fetchNow⟩ := by
  rcases fetchWeatherFromAPI_cases cache apiKey upstream toISO fetchNow location unit with
    ⟨e, he⟩ | ⟨wr, hst, hw⟩
  · rw [he] at h
    exact absurd h (by simp)
  · rw [hw] at h
    injection h with h2
    subst h2
    exact ⟨hst, rfl⟩

/-! ### Sample values used by witnesses -/

def cdSample : CachedWeatherData := ⟨20, "°C", "Paris, France", "t0", 0⟩

def cacheSample : SimpleCache CachedWeatherData :=
  ⟨[("weather_Paris_celsius", ⟨cdSample, 1000000000⟩)], 3600000⟩

/-! ### Claims -/

/-- C6: for every key and value, `SimpleCache.get` after `SimpleCache.set`
returns exactly the stored value as long as `now ≤ expiry` where
`expiry = insertion time + ttl`; once `now > expiry`, `get` returns absent
and deletes the entry from the map; `get` on a never-set key returns
absent. -/
theorem claim_C6_cache_set_get {T : Type} (c : SimpleCache T) (key : String)
    (value : T) (setNow now : ℤ) :
    mapGet ((c.set setNow key value)).cache key = some ⟨value, setNow + c.ttl⟩ ∧
    (now ≤ setNow + c.ttl →
      (c.set setNow key value).get now key = (some value, c.set setNow key value)) ∧
    (setNow + c.ttl < now →
      ((c.set setNow key value).get now key).1 = none ∧
      mapGet (((c.set setNow key value).get now key).2).cache key = none) ∧
    (mapGet c.cache key = none → (c.get now key).1 = none) := by
  have hset : mapGet ((c.set setNow key value)).cache key =
      some ⟨value, setNow + c.ttl⟩ := by
    simp [SimpleCache.set, mapGet_mapSet]
  refine ⟨hset, ?_, ?_, ?_⟩
  · intro hle
    have hng : ¬ (setNow + c.ttl < now) := by omega
    simp [SimpleCache.get, hset, hng]
  · intro hgt
    constructor
    · simp [SimpleCache.get, SimpleCache.set, mapGet_mapSet, hgt]
    · simp [SimpleCache.get, SimpleCache.set, mapGet_mapSet, hgt, mapGet_mapDelete]
  · intro hnone
    simp [SimpleCache.get, hnone]

/-- Witness for C6 at a concrete cache: a value set at time 0 with TTL 5000
is still returned at time 4000 and is gone at time 6000. -/
theorem claim_C6_witness :
    ((SimpleCache.set (⟨[], 5000⟩ : SimpleCache ℚ) 0 "k" 7).get 4000 "k").1 = some 7 ∧
    ((SimpleCache.set (⟨[], 5000⟩ : SimpleCache ℚ) 0 "k" 7).get 6000 "k").1 = none := by
  have h1 := claim_C6_cache_set_get (⟨[], 5000⟩ : SimpleCache ℚ) "k" (7 : ℚ) 0 4000
  have h2 := claim_C6_cache_set_get (⟨[], 5000⟩ : SimpleCache ℚ) "k" (7 : ℚ) 0 6000
  constructor
  · rw [h1.2.1 (by norm_num)]
  · exact (h2.2.2.1 (by norm_num)).1

/-- C3: whenever the cached reading for `(location, unit)` has age
`now - cacheTime` strictly below 15 minutes, `weatherGet` returns that
reading's fields unchanged with status `"online"`, and the result does not
depend on the upstream behaviour, API key, timestamp conversion or fetch
time (no upstream call is made). -/
theorem claim_C3_fresh_cache_hit
    (cache : SimpleCache CachedWeatherData) (now : ℤ) (apiKey : String)
    (upstream : UpstreamBehavior) (toISO : String → String) (fetchNow : ℤ)
    (location unit : String) (cd : CachedWeatherData)
    (hget : (cache.get now (weatherCacheKey location unit)).1 = some cd)
    (hfresh : now - cd.cacheTime < 15 * 60 * 1000) :
    weatherGet cache now apiKey upstream toISO fetchNow location unit =
      (.ok ⟨cd.temperature, cd.unit, cd.location, cd.timestamp, "online"⟩,
        (cache.get now (weatherCacheKey location unit)).2) :=
  weatherGet_eq_of_fresh cache now apiKey upstream toISO fetchNow location unit cd
    hget hfresh

/-- Witness for C3: a reading cached at time 0 and queried at 10 minutes is
returned online, unchanged, even though the upstream fetch would fail. -/
theorem claim_C3_witness :
    weatherGet cacheSample 600000 "k" UpstreamBehavior.failure id 600001
        "Paris" "celsius" =
      (.ok ⟨20, "°C", "Paris, France", "t0", "online"⟩, cacheSample) := by
  have h := claim_C3_fresh_cache_hit cacheSample 600000 "k" UpstreamBehavior.failure id
      600001 "Paris" "celsius" cdSample (by decide) (by decide)
  exact h.trans (by rfl)

/-- C4: whenever the cached reading for `(location, unit)` has age strictly
above 60 minutes and the upstream fetch fails for any reason, `weatherGet`
returns that reading's fields unchanged with status `"outdated"` instead of
propagating the fetch error. -/
theorem claim_C4_stale_fallback_outdated
    (cache : SimpleCache CachedWeatherData) (now : ℤ) (apiKey : String)
    (upstream : UpstreamBehavior) (toISO : String → String) (fetchNow : ℤ)
    (location unit : String) (cd : CachedWeatherData) (e : AppError)
    (hget : (cache.get now (weatherCacheKey location unit)).1 = some cd)
    (hstale : now - cd.cacheTime > 60 * 60 * 1000)
    (hfail : fetchWeatherFromAPI (cache.get now (weatherCacheKey location unit)).2
        apiKey upstream toISO fetchNow location unit = .error e) :
    weatherGet cache now apiKey upstream toISO fetchNow location unit =
      (.ok ⟨cd.temperature, cd.unit, cd.location, cd.timestamp, "outdated"⟩,
        (cache.get now (weatherCacheKey location unit)).2) := by
  rw [weatherGet_eq_of_stale cache now apiKey upstream toISO fetchNow location unit cd
    hget hstale, hfail]

/-- Witness for C4: a reading cached at time 0 and queried at 70 minutes
with a failing upstream comes back unchanged with status `"outdated"`. -/
theorem claim_C4_witness :
    weatherGet cacheSample 4200000 "k" UpstreamBehavior.failure id 4200001
        "Paris" "celsius" =
      (.ok ⟨20, "°C", "Paris, France", "t0", "outdated"⟩, cacheSample) := by
  have h := claim_C4_stale_fallback_outdated cacheSample 4200000 "k"
      UpstreamBehavior.failure id 4200001 "Paris" "celsius" cdSample
      ⟨.WEATHER_API_ERROR, "weatherApiRequestFailed"⟩ (by decide) (by decide) (by rfl)
  exact h.trans (by rfl)


/-- C5: when the cache lookup finds nothing, or finds a reading aged between
15 and 60 minutes inclusive, and the upstream fetch fails: `weatherGet`
returns the cached reading with status `"offline"` whenever one was found,
propagates the failure exactly when none was found, and in this situation an
error escapes `weatherGet` if and only if the cache held no entry. -/
theorem claim_C5_offline_or_propagate
    (cache : SimpleCache CachedWeatherData) (now : ℤ) (apiKey : String)
    (upstream : UpstreamBehavior) (toISO : String → String) (fetchNow : ℤ)
    (location unit : String) (e : AppError)
    (hfail : fetchWeatherFromAPI (cache.get now (weatherCacheKey location unit)).2
        apiKey upstream toISO fetchNow location unit = .error e) :
    ((cache.get now (weatherCacheKey location unit)).1 = none →
      weatherGet cache now apiKey upstream toISO fetchNow location unit =
        (.error e, (cache.get now (weatherCacheKey location unit)).2)) ∧
    (∀ cd, (cache.get now (weatherCacheKey location unit)).1 = some cd →
      15 * 60 * 1000 ≤ now - cd.cacheTime → now - cd.cacheTime ≤ 60 * 60 * 1000 →
      weatherGet cache now apiKey upstream toISO fetchNow location unit =
        (.ok ⟨cd.temperature, cd.unit, cd.location, cd.timestamp, "offline"⟩,
          (cache.get now (weatherCacheKey location unit)).2)) ∧
    ((∃ e2, (weatherGet cache now apiKey upstream toISO fetchNow location unit).1 =
        .error e2) ↔
      (cache.get now (weatherCacheKey location unit)).1 = none) := by
  refine ⟨?_, ?_, ?_⟩
  · intro hnone
    rw [weatherGet_eq_of_none _ _ _ _ _ _ _ _ hnone, hfail]
  · intro cd hsome h15 h60
    rw [weatherGet_eq_of_aging _ _ _ _ _ _ _ _ _ hsome h15 h60, hfail]
  · constructor
    · rintro ⟨e2, he2⟩
      rcases hg : (cache.get now (weatherCacheKey location unit)).1 with _ | cd
      · rfl
      · exfalso
        by_cases h1 : now - cd.cacheTime < 15 * 60 * 1000
        · rw [weatherGet_eq_of_fresh _ _ _ _ _ _ _ _ _ hg h1] at he2
          simp at he2
        · by_cases h2 : now - cd.cacheTime > 60 * 60 * 1000
          · rw [weatherGet_eq_of_stale _ _ _ _ _ _ _ _ _ hg h2, hfail] at he2
            simp at he2
          · rw [weatherGet_eq_of_aging _ _ _ _ _ _ _ _ _ hg (by omega) (by omega),
              hfail] at he2
            simp at he2
    · intro hnone
      exact ⟨e, by rw [weatherGet_eq_of_none _ _ _ _ _ _ _ _ hnone, hfail]⟩

/-- Witness for C5 at a concrete state: empty cache and failing upstream
makes `weatherGet` fail with the upstream error. -/
theorem claim_C5_witness :
    weatherGet (⟨[], 3600000⟩ : SimpleCache CachedWeatherData) 1000 "k"
        UpstreamBehavior.failure id 1001 "Paris" "celsius" =
      (.error ⟨.WEATHER_API_ERROR, "weatherApiRequestFailed"⟩,
        (⟨[], 3600000⟩ : SimpleCache CachedWeatherData)) := by
  have h := claim_C5_offline_or_propagate
      (⟨[], 3600000⟩ : SimpleCache CachedWeatherData) 1000 "k"
      UpstreamBehavior.failure id 1001 "Paris" "celsius"
      ⟨.WEATHER_API_ERROR, "weatherApiRequestFailed"⟩ (by rfl)
  exact (h.1 (by rfl)).trans (by rfl)

/-- C2 is refuted as stated: with a cached reading aged 70 minutes and the
upstream returning 65 °C on a celsius request, `weatherGet` does not fail —
the validation failure is replaced by the cached fallback, returned with
status `"outdated"`. -/
theorem claim_C2_counterexample :
    (weatherGet cacheSample 4200000 "k"
        (.response 200 ⟨⟨65, 149, "lu"⟩, ⟨"Paris", "", "France"⟩⟩) id 4200001
        "Paris" "celsius").1 =
      .ok ⟨20, "°C", "Paris, France", "t0", "outdated"⟩ := by
  rfl

/-- C2 (amended): for a celsius request whose upstream, with a configured
key, answers 2xx with `temp_c = 65`, the fetch itself always fails with a
validation error; `weatherGet` propagates that failure exactly when the
cache lookup observes nothing, while with a cached reading aged over 60
minutes it returns the reading with status `"outdated"` and with one aged
15–60 minutes with status `"offline"`. -/
theorem claim_C2_amended
    (cache : SimpleCache CachedWeatherData) (now : ℤ) (apiKey : String)
    (status : ℕ) (data : ExternalWeatherAPIResponse) (toISO : String → String)
    (fetchNow : ℤ) (location : String)
    (hkey : apiKey ≠ "") (h200 : 200 ≤ status) (h299 : status ≤ 299)
    (htemp : data.current.temp_c = 65) :
    (∀ c0 : SimpleCache CachedWeatherData,
      fetchWeatherFromAPI c0 apiKey (.response status data) toISO fetchNow
        location "celsius" = .error ⟨.VALIDATION_ERROR, "temperatureOutOfRange"⟩) ∧
    ((cache.get now (weatherCacheKey location "celsius")).1 = none →
      (weatherGet cache now apiKey (.response status data) toISO fetchNow
        location "celsius").1 =
          .error ⟨.VALIDATION_ERROR, "temperatureOutOfRange"⟩) ∧
    (∀ cd, (cache.get now (weatherCacheKey location "celsius")).1 = some cd →
      now - cd.cacheTime > 60 * 60 * 1000 →
      (weatherGet cache now apiKey (.response status data) toISO fetchNow
        location "celsius").1 =
          .ok ⟨cd.temperature, cd.unit, cd.location, cd.timestamp, "outdated"⟩) ∧
    (∀ cd, (cache.get now (weatherCacheKey location "celsius")).1 = some cd →
      15 * 60 * 1000 ≤ now - cd.cacheTime → now - cd.cacheTime ≤ 60 * 60 * 1000 →
      (weatherGet cache now apiKey (.response status data) toISO fetchNow
        location "celsius").1 =
          .ok ⟨cd.temperature, cd.unit, cd.location, cd.timestamp, "offline"⟩) := by
  have hfetch : ∀ c0 : SimpleCache CachedWeatherData,
      fetchWeatherFromAPI c0 apiKey (.response status data) toISO fetchNow
        location "celsius" =
        .error ⟨.VALIDATION_ERROR, "temperatureOutOfRange"⟩ := by
    intro c0
    have hsx : ¬ (status < 200 ∨ 299 < status) := by omega
    simp [fetchWeatherFromAPI, hkey, hsx, htemp]
    norm_num
  refine ⟨hfetch, ?_, ?_, ?_⟩
  · intro hnone
    rw [weatherGet_eq_of_none _ _ _ _ _ _ _ _ hnone, hfetch _]
  · intro cd hsome hstale
    rw [weatherGet_eq_of_stale _ _ _ _ _ _ _ _ _ hsome hstale, hfetch _]
  · intro cd hsome h15 h60
    rw [weatherGet_eq_of_aging _ _ _ _ _ _ _ _ _ hsome h15 h60, hfetch _]

/-- Witness for the amended C2: empty cache, 65 °C from upstream, and the
validation error escapes. -/
theorem claim_C2_witness :
    (weatherGet (⟨[], 3600000⟩ : SimpleCache CachedWeatherData) 1000 "k"
        (.response 200 ⟨⟨65, 149, "lu"⟩, ⟨"P", "", "F"⟩⟩) id 1001 "P" "celsius").1 =
      .error ⟨.VALIDATION_ERROR, "temperatureOutOfRange"⟩ := by
  have h := claim_C2_amended (⟨[], 3600000⟩ : SimpleCache CachedWeatherData) 1000 "k"
      200 ⟨⟨65, 149, "lu"⟩, ⟨"P", "", "F"⟩⟩ id 1001 "P"
      (by decide) (by norm_num) (by norm_num) (by norm_num)
  exact h.2.1 (by rfl)

/-- C1 is contradicted by the code: for a Fahrenheit request the [-90, 60]
range check is applied to the raw Fahrenheit value rather than its Celsius
equivalent, so 70.4 °F — whose Celsius equivalent (70.4 - 32)·5/9 ≈ 21.3
lies inside [-90, 60] — is rejected as `temperatureOutOfRange`. -/
theorem claim_C1_fahrenheit_range_bug :
    fetchWeatherFromAPI (⟨[], 3600000⟩ : SimpleCache CachedWeatherData) "k"
        (.response 200 ⟨⟨21.3, 70.4, "lu"⟩, ⟨"Austin", "Texas", "USA"⟩⟩) id 0
        "Austin" "fahrenheit" =
      .error ⟨.VALIDATION_ERROR, "temperatureOutOfRange"⟩ ∧
    -90 ≤ ((70.4 : ℚ) - 32) * 5 / 9 ∧ ((70.4 : ℚ) - 32) * 5 / 9 ≤ 60 := by
  refine ⟨?_, by norm_num, by norm_num⟩
  norm_num [fetchWeatherFromAPI]
  decide


/-! ### Rounding helpers -/

lemma jsRound_eq_floor (x : ℚ) : jsRound x = ⌊x + 1/2⌋ :=
  (Rat.floor_def' (x + 1/2)).trans (Rat.floor_def).symm

lemma roundTo1_2134 : roundTo1 (21.34 : ℚ) = 21.3 := by
  rw [roundTo1, jsRound_eq_floor]
  rw [show ((21.34 : ℚ) * 10 + 1/2) = 2139/10 by norm_num]
  rw [show (⌊(2139/10 : ℚ)⌋ : ℤ) = 213 by rw [Int.floor_eq_iff]; norm_num]
  norm_num

/-- C7: on a successful upstream fetch, the reading extracts `temp_f` for a
Fahrenheit request and `temp_c` otherwise, rounds it to one decimal place
(JavaScript `Math.round(t * 10) / 10`), uses the display symbol `"°F"` or
`"°C"`, formats the location as `name, region` with the country as fallback
for an empty region, converts the timestamp, and carries status
`"online"`; in particular `temp_c = 21.34` for a celsius request yields
temperature `21.3` and unit `"°C"`. -/
theorem claim_C7_success_shape
    (cache : SimpleCache CachedWeatherData) (apiKey : String) (status : ℕ)
    (data : ExternalWeatherAPIResponse) (toISO : String → String) (fetchNow : ℤ)
    (location unit : String)
    (hkey : apiKey ≠ "") (h200 : 200 ≤ status) (h299 : status ≤ 299)
    (hlo : -90 ≤ (if unit = "fahrenheit" then data.current.temp_f
      else data.current.temp_c))
    (hhi : (if unit = "fahrenheit" then data.current.temp_f
      else data.current.temp_c) ≤ 60) :
    (∃ c2, fetchWeatherFromAPI cache apiKey (.response status data) toISO fetchNow
        location unit =
      .ok (⟨roundTo1 (if unit = "fahrenheit" then data.current.temp_f
              else data.current.temp_c),
            (if unit = "fahrenheit" then "°F" else "°C"),
            data.location.name ++ ", " ++
              (if data.location.region = "" then data.location.country
               else data.location.region),
            toISO data.current.last_updated, "online"⟩, c2)) ∧
    fetchWeatherFromAPI (⟨[], 3600000⟩ : SimpleCache CachedWeatherData) "k"
        (.response 200 ⟨⟨21.34, 70.4, "lu"⟩, ⟨"Paris", "", "France"⟩⟩) id 0
        "Paris" "celsius" =
      .ok (⟨21.3, "°C", "Paris, France", "lu", "online"⟩,
        ⟨[("weather_Paris_celsius",
            ⟨⟨21.3, "°C", "Paris, France", "lu", 0⟩, 3600000⟩)], 3600000⟩) := by
  constructor
  · have hsx : ¬ (status < 200 ∨ 299 < status) := by omega
    have hts : ¬ ((if unit = "fahrenheit" then data.current.temp_f
        else data.current.temp_c) < -90 ∨
        (if unit = "fahrenheit" then data.current.temp_f
        else data.current.temp_c) > 60) := by
      rintro (h | h) <;> linarith
    refine ⟨cache.set fetchNow (weatherCacheKey location unit)
        ⟨roundTo1 (if unit = "fahrenheit" then data.current.temp_f
            else data.current.temp_c),
          (if unit = "fahrenheit" then "°F" else "°C"),
          data.location.name ++ ", " ++
            (if data.location.region = "" then data.location.country
             else data.location.region),
          toISO data.current.last_updated, fetchNow⟩, ?_⟩
    simp [fetchWeatherFromAPI, hkey, hsx, hts]
  · have hcond : ¬ ((21.34 : ℚ) < -90 ∨ (21.34 : ℚ) > 60) := by
      rintro (h | h) <;> norm_num at h
    simp [fetchWeatherFromAPI, SimpleCache.set, weatherCacheKey, mapSet, hcond,
      roundTo1_2134]

/-- Witness for C7: a Fahrenheit request against a succeeding upstream
yields the rounded Fahrenheit temperature with unit `"°F"` and the
country-fallback location. -/
theorem claim_C7_witness :
    ∃ c2, fetchWeatherFromAPI (⟨[], 60000⟩ : SimpleCache CachedWeatherData) "k"
        (.response 200 ⟨⟨10.2, 50.4, "t1"⟩, ⟨"Lisbon", "", "Portugal"⟩⟩) id 5
        "Lisbon" "fahrenheit" =
      .ok (⟨roundTo1 50.4, "°F", "Lisbon, Portugal", "t1", "online"⟩, c2) := by
  have h := (claim_C7_success_shape (⟨[], 60000⟩ : SimpleCache CachedWeatherData) "k"
      200 ⟨⟨10.2, 50.4, "t1"⟩, ⟨"Lisbon", "", "Portugal"⟩⟩ id 5 "Lisbon" "fahrenheit"
      (by decide) (by norm_num) (by norm_num) (by norm_num) (by norm_num)).1
  simpa using h

/-! ### Cache-write case analysis for `weatherGet` -/

lemma weatherGet_no_write_of_error (cache : SimpleCache CachedWeatherData) (now : ℤ)
    (apiKey : String) (upstream : UpstreamBehavior) (toISO : String → String)
    (fetchNow : ℤ) (location unit : String) (e : AppError)
    (he : fetchWeatherFromAPI (cache.get now (weatherCacheKey location unit)).2
        apiKey upstream toISO fetchNow location unit = .error e) :
    (weatherGet cache now apiKey upstream toISO fetchNow location unit).2 =
      (cache.get now (weatherCacheKey location unit)).2 := by
  rcases hg : (cache.get now (weatherCacheKey location unit)).1 with _ | cd
  · rw [weatherGet_eq_of_none _ _ _ _ _ _ _ _ hg, he]
  · by_cases h1 : now - cd.cacheTime < 15 * 60 * 1000
    · rw [weatherGet_eq_of_fresh _ _ _ _ _ _ _ _ _ hg h1]
    · by_cases h2 : now - cd.cacheTime > 60 * 60 * 1000
      · rw [weatherGet_eq_of_stale _ _ _ _ _ _ _ _ _ hg h2, he]
      · rw [weatherGet_eq_of_aging _ _ _ _ _ _ _ _ _ hg (by omega) (by omega), he]

lemma weatherGet_snd_cases (cache : SimpleCache CachedWeatherData) (now : ℤ)
    (apiKey : String) (upstream : UpstreamBehavior) (toISO : String → String)
    (fetchNow : ℤ) (location unit : String) :
    (weatherGet cache now apiKey upstream toISO fetchNow location unit).2 =
      (cache.get now (weatherCacheKey location unit)).2 ∨
    ∃ r : WeatherResponse, r.status = "online" ∧
      (weatherGet cache now apiKey upstream toISO fetchNow location unit).1 = .ok r ∧
      (weatherGet cache now apiKey upstream toISO fetchNow location unit).2 =
        ((cache.get now (weatherCacheKey location unit)).2).set fetchNow
          (weatherCacheKey location unit)
          ⟨r.temperature, r.unit, r.location, r.timestamp, fetchNow⟩ := by
  rcases fetchWeatherFromAPI_cases (cache.get now (weatherCacheKey location unit)).2
      apiKey upstream toISO fetchNow location unit with ⟨e, he⟩ | ⟨wr, hst, hw⟩
  · exact Or.inl (weatherGet_no_write_of_error _ _ _ _ _ _ _ _ _ he)
  · rcases hg : (cache.get now (weatherCacheKey location unit)).1 with _ | cd
    · have heq := weatherGet_eq_of_none cache now apiKey upstream toISO fetchNow
        location unit hg
      rw [hw] at heq
      exact Or.inr ⟨wr, hst, by rw [heq], by rw [heq]⟩
    · by_cases h1 : now - cd.cacheTime < 15 * 60 * 1000
      · exact Or.inl (by
          rw [weatherGet_eq_of_fresh _ _ _ _ _ _ _ _ _ hg h1])
      · by_cases h2 : now - cd.cacheTime > 60 * 60 * 1000
        · have heq := weatherGet_eq_of_stale cache now apiKey upstream toISO fetchNow
            location unit cd hg h2
          rw [hw] at heq
          exact Or.inr ⟨wr, hst, by rw [heq], by rw [heq]⟩
        · have heq := weatherGet_eq_of_aging cache now apiKey upstream toISO fetchNow
            location unit cd hg (by omega) (by omega)
          rw [hw] at heq
          exact Or.inr ⟨wr, hst, by rw [heq], by rw [heq]⟩

/-- C8: the cache entry for `(location, unit)` is written only by a
successful fetch: on a fresh cache hit the cache state after `weatherGet`
equals the state after the initial lookup (which at most performed lazy
expiry deletion), likewise on every failed fetch; and in every execution
either no write happened, or the fetch succeeded and the final state is
exactly the lookup state with the freshly built reading stored under the
key with `cacheTime = fetchNow`. -/
theorem claim_C8_cache_write_discipline
    (cache : SimpleCache CachedWeatherData) (now : ℤ) (apiKey : String)
    (upstream : UpstreamBehavior) (toISO : String → String) (fetchNow : ℤ)
    (location unit : String) :
    (∀ cd, (cache.get now (weatherCacheKey location unit)).1 = some cd →
      now - cd.cacheTime < 15 * 60 * 1000 →
      (weatherGet cache now apiKey upstream toISO fetchNow location unit).2 =
        (cache.get now (weatherCacheKey location unit)).2) ∧
    (∀ e, fetchWeatherFromAPI (cache.get now (weatherCacheKey location unit)).2
        apiKey upstream toISO fetchNow location unit = .error e →
      (weatherGet cache now apiKey upstream toISO fetchNow location unit).2 =
        (cache.get now (weatherCacheKey location unit)).2) ∧
    ((weatherGet cache now apiKey upstream toISO fetchNow location unit).2 =
        (cache.get now (weatherCacheKey location unit)).2 ∨
      ∃ r : WeatherResponse, r.status = "online" ∧
        (weatherGet cache now apiKey upstream toISO fetchNow location unit).1 =
          .ok r ∧
        (weatherGet cache now apiKey upstream toISO fetchNow location unit).2 =
          ((cache.get now (weatherCacheKey location unit)).2).set fetchNow
            (weatherCacheKey location unit)
            ⟨r.temperature, r.unit, r.location, r.timestamp, fetchNow⟩) := by
  refine ⟨?_, ?_, weatherGet_snd_cases cache now apiKey upstream toISO fetchNow
    location unit⟩
  · intro cd h hf
    rw [weatherGet_eq_of_fresh _ _ _ _ _ _ _ _ _ h hf]
  · intro e he
    exact weatherGet_no_write_of_error _ _ _ _ _ _ _ _ _ he

/-- Witness for C8: on a fresh cache hit with a failing upstream, the cache
is left exactly as it was. -/
theorem claim_C8_witness :
    (weatherGet cacheSample 600000 "k" UpstreamBehavior.failure id 600001
      "Paris" "celsius").2 = cacheSample := by
  have h := claim_C8_cache_write_discipline cacheSample 600000 "k"
      UpstreamBehavior.failure id 600001 "Paris" "celsius"
  exact (h.1 cdSample (by decide) (by decide)).trans (by rfl)

/-- C9: the handler answers 400 `locationRequired` when `location` is absent
or not a string, 400 `invalidUnit` when `unit` is present but neither
`"celsius"` nor `"fahrenheit"` (defaulting to `"celsius"` when omitted),
and neither 400 path touches the rule engine (the response and cache state
are independent of the upstream and identical to the input state); a
successful retrieval yields the 200 success envelope, a `WEATHER_API_ERROR`
maps to 503 with the external-API envelope, and a `LOCATION_NOT_FOUND`
error maps to 404. -/
theorem claim_C9_handler_mapping
    (cache : SimpleCache CachedWeatherData) (now : ℤ) (apiKey : String)
    (upstream : UpstreamBehavior) (toISO : String → String) (fetchNow : ℤ) :
    (∀ unitQ, getHandler cache now apiKey upstream toISO fetchNow none unitQ =
      (.validation400 "locationRequired", cache)) ∧
    (∀ unitQ, getHandler cache now apiKey upstream toISO fetchNow
        (some QueryVal.nonString) unitQ =
      (.validation400 "locationRequired", cache)) ∧
    (∀ s qv, s ≠ "" → qv ≠ QueryVal.str "celsius" → qv ≠ QueryVal.str "fahrenheit" →
      getHandler cache now apiKey upstream toISO fetchNow (some (QueryVal.str s))
        (some qv) = (.validation400 "invalidUnit", cache)) ∧
    (∀ s, getHandler cache now apiKey upstream toISO fetchNow (some (QueryVal.str s))
        none =
      getHandler cache now apiKey upstream toISO fetchNow (some (QueryVal.str s))
        (some (QueryVal.str "celsius"))) ∧
    (∀ s u wd c2, s ≠ "" → (u = "celsius" ∨ u = "fahrenheit") →
      weatherGet cache now apiKey upstream toISO fetchNow s u = (.ok wd, c2) →
      getHandler cache now apiKey upstream toISO fetchNow (some (QueryVal.str s))
        (some (QueryVal.str u)) = (.success200 wd, c2)) ∧
    (∀ s u e c2, s ≠ "" → (u = "celsius" ∨ u = "fahrenheit") →
      weatherGet cache now apiKey upstream toISO fetchNow s u = (.error e, c2) →
      e.code = ErrCode.WEATHER_API_ERROR →
      getHandler cache now apiKey upstream toISO fetchNow (some (QueryVal.str s))
        (some (QueryVal.str u)) = (.externalApiError503 e.message, c2)) ∧
    (∀ s u e c2, s ≠ "" → (u = "celsius" ∨ u = "fahrenheit") →
      weatherGet cache now apiKey upstream toISO fetchNow s u = (.error e, c2) →
      e.code = ErrCode.LOCATION_NOT_FOUND →
      getHandler cache now apiKey upstream toISO fetchNow (some (QueryVal.str s))
        (some (QueryVal.str u)) = (.locationNotFound404 e.message, c2)) := by
  refine ⟨fun unitQ => rfl, fun unitQ => rfl, ?_, fun s => rfl, ?_, ?_, ?_⟩
  · intro s qv hs h1 h2
    simp [getHandler, Option.getD, hs, h1, h2]
  · intro s u wd c2 hs hu hw
    rcases hu with rfl | rfl <;> simp [getHandler, Option.getD, hs, hw]
  · intro s u e c2 hs hu hw he
    rcases hu with rfl | rfl <;> simp [getHandler, Option.getD, hs, hw, he]
  · intro s u e c2 hs hu hw he
    rcases hu with rfl | rfl <;> simp [getHandler, Option.getD, hs, hw, he]

/-- Witness for C9: `unit = "kelvin"` is rejected with a 400 `invalidUnit`
response and an untouched cache. -/
theorem claim_C9_witness :
    getHandler cacheSample 0 "k" UpstreamBehavior.failure id 1
        (some (QueryVal.str "Paris")) (some (QueryVal.str "kelvin")) =
      (.validation400 "invalidUnit", cacheSample) :=
  (claim_C9_handler_mapping cacheSample 0 "k" UpstreamBehavior.failure id 1).2.2.1
    "Paris" (QueryVal.str "kelvin") (by decide) (by decide) (by decide)

/-! ### Cache well-formedness (expiry = cacheTime + ttl) -/

/-- Every entry of the cache satisfies `expiry = value.cacheTime + ttl`,
which is what `fetchWeatherFromAPI` establishes whenever it writes. -/
def cacheWF (c : SimpleCache CachedWeatherData) : Prop :=
  ∀ key e, mapGet c.cache key = some e → e.expiry = e.value.cacheTime + c.ttl

lemma cacheWF_get_snd (c : SimpleCache CachedWeatherData) (now : ℤ) (key : String)
    (hwf : cacheWF c) : cacheWF (c.get now key).2 := by
  rcases SimpleCache.get_snd_cases c now key with h | h <;> rw [h]
  · exact hwf
  · intro k e hm
    rw [mapGet_mapDelete] at hm
    by_cases hk : key = k
    · rw [if_pos hk] at hm
      exact absurd hm (by simp)
    · rw [if_neg hk] at hm
      exact hwf _ _ hm

lemma cacheWF_set (c : SimpleCache CachedWeatherData) (t : ℤ) (key : String)
    (v : CachedWeatherData) (hwf : cacheWF c) (hv : v.cacheTime = t) :
    cacheWF (c.set t key v) := by
  intro k e hm
  simp only [SimpleCache.set] at hm ⊢
  rw [mapGet_mapSet] at hm
  by_cases hk : key = k
  · rw [if_pos hk] at hm
    cases hm
    simp [hv]
  · rw [if_neg hk] at hm
    exact hwf _ _ hm

/-- Sample well-formed cache: the entry written at time 0 with TTL 3600000
expires at 3600000. -/
def cacheWFSample : SimpleCache CachedWeatherData :=
  ⟨[("weather_Paris_celsius", ⟨cdSample, 3600000⟩)], 3600000⟩

/-- C10: on a cache state whose entries all satisfy
`expiry = cacheTime + ttl` (the invariant `set` establishes), every cached
reading `weatherGet` observes through `get` has age `now - cacheTime` at
most the configured TTL; consequently, when the TTL is at most 60 minutes
the stale branch is unreachable and `weatherGet` never returns a reading
with status `"outdated"`; moreover `weatherGet` preserves the invariant. -/
theorem claim_C10_ttl_bounds_age
    (cache : SimpleCache CachedWeatherData) (now : ℤ) (apiKey : String)
    (upstream : UpstreamBehavior) (toISO : String → String) (fetchNow : ℤ)
    (location unit : String) (hwf : cacheWF cache) :
    (∀ cd, (cache.get now (weatherCacheKey location unit)).1 = some cd →
      now - cd.cacheTime ≤ cache.ttl) ∧
    (cache.ttl ≤ 60 * 60 * 1000 →
      ∀ r, (weatherGet cache now apiKey upstream toISO fetchNow location unit).1 =
        .ok r → r.status ≠ "outdated") ∧
    cacheWF (weatherGet cache now apiKey upstream toISO fetchNow location unit).2 := by
  have hage : ∀ cd, (cache.get now (weatherCacheKey location unit)).1 = some cd →
      now - cd.cacheTime ≤ cache.ttl := by
    intro cd h
    obtain ⟨e, hme, hval, hexp⟩ := SimpleCache.get_eq_some _ _ _ _ h
    have hw := hwf _ _ hme
    rw [hval] at hw
    omega
  refine ⟨hage, ?_, ?_⟩
  · intro httl r hr
    rcases hg : (cache.get now (weatherCacheKey location unit)).1 with _ | cd
    · rcases fetchWeatherFromAPI_cases
          (cache.get now (weatherCacheKey location unit)).2 apiKey upstream toISO
          fetchNow location unit with ⟨e, he⟩ | ⟨wr, hst, hw⟩
      · rw [weatherGet_eq_of_none _ _ _ _ _ _ _ _ hg, he] at hr
        simp at hr
      · rw [weatherGet_eq_of_none _ _ _ _ _ _ _ _ hg, hw] at hr
        simp at hr
        cases hr
        rw [hst]
        decide
    · have hle := hage cd hg
      by_cases h1 : now - cd.cacheTime < 15 * 60 * 1000
      · rw [weatherGet_eq_of_fresh _ _ _ _ _ _ _ _ _ hg h1] at hr
        simp at hr
        cases hr
        simp
      · by_cases h2 : now - cd.cacheTime > 60 * 60 * 1000
        · exact absurd h2 (by omega)
        · rw [weatherGet_eq_of_aging _ _ _ _ _ _ _ _ _ hg (by omega) (by omega)] at hr
          rcases fetchWeatherFromAPI_cases
              (cache.get now (weatherCacheKey location unit)).2 apiKey upstream toISO
              fetchNow location unit with ⟨e, he⟩ | ⟨wr, hst, hw⟩
          · rw [he] at hr
            simp at hr
            cases hr
            simp
          · rw [hw] at hr
            simp at hr
            cases hr
            rw [hst]
            decide
  · rcases weatherGet_snd_cases cache now apiKey upstream toISO fetchNow location unit
        with h | ⟨r, hst, hr1, hr2⟩
    · rw [h]
      exact cacheWF_get_snd cache now (weatherCacheKey location unit) hwf
    · rw [hr2]
      exact cacheWF_set _ _ _ _
        (cacheWF_get_snd cache now (weatherCacheKey location unit) hwf) rfl

/-- Witness for C10: on the well-formed sample cache the observed age is
bounded by the TTL and the fresh-hit answer is not `"outdated"`. -/
theorem claim_C10_witness :
    600000 - cdSample.cacheTime ≤ cacheWFSample.ttl ∧
    (⟨20, "°C", "Paris, France", "t0", "online"⟩ : WeatherResponse).status ≠
      "outdated" := by
  have hwf : cacheWF cacheWFSample := by
    intro k e hm
    by_cases hk : "weather_Paris_celsius" = k
    · simp [cacheWFSample, mapGet, hk] at hm
      rw [← hm]
      decide
    · simp [cacheWFSample, mapGet, hk] at hm
  have h := claim_C10_ttl_bounds_age cacheWFSample 600000 "k"
      UpstreamBehavior.failure id 600001 "Paris" "celsius" hwf
  exact ⟨h.1 cdSample (by decide), h.2.1 (by decide) _ (by rfl)⟩

end Weather
